import Mathlib

/-!
A shallow embedding of the slug-allocation and cache-aside redirect core of
the `url_shortener` service (Python/FastAPI), together with proofs of the
behavioural properties claimed for it.

Modelling conventions:
* Timestamps are integers (seconds); `none` in an `expires_at` field means
  "no expiration", mirroring a nullable SQL `DateTime` column.
* The Persistent Store (PostgreSQL via SQLAlchemy) is a `Database` value:
  a list of `ShortURL` rows plus a list of `Click` rows.  The primary-key
  uniqueness constraint on `slug` is reflected in `add_slug_to_database`,
  which reports an `IntegrityError`-derived failure exactly when a row with
  the same slug is present (as the unique constraint does).
* The Cache Layer (Redis) is a `Cache` value: an association list of
  key/value entries plus an `available` flag.  When `available` is `false`
  every Redis call raises `RedisError`; since every caching helper in
  `src/cache/redis_client.py` catches `RedisError` internally, this is
  modelled by the helpers returning their documented fallback results.
  Entry TTLs are not modelled: an entry present in `entries` stands for a
  cache entry whose TTL has not yet lapsed.
* Randomness (`secrets.choice`) is modelled by an explicit stream of draws
  `pick : Nat → Nat`: the n-th call to `choice` returns the element of the
  alphabet at index `pick n % alphabet.length`, which is exactly the
  guarantee `choice` gives (a uniformly chosen element of the sequence).
* Python exceptions become the `PyError` sum type threaded through
  `Except`; catching an exception class corresponds to testing the
  constructor.
* Functions that perform store writes additionally return the (possibly
  updated) `Database` and the list of slugs passed to the insert
  operation, in call order (the reservation-attempt trace); the trace is
  pure instrumentation recording each call of `add_to_db_func`.
-/

/-- Python exception values that cross the boundaries modelled here.
`valueError` is `ValueError`, `slugAlreadyExistsError` and
`noLongUrlFoundError` are the classes from `src/exceptions.py`, and
`multipleResultsFound` is SQLAlchemy's `MultipleResultsFound` raised by
`scalar_one_or_none` when a query returns more than one row. -/
inductive PyError where
  | valueError (msg : String)
  | slugAlreadyExistsError (msg : String)
  | noLongUrlFoundError (msg : String)
  | multipleResultsFound
deriving Repr, DecidableEq

/-- `isinstance(e, SlugAlreadyExistsError)`: the discriminator used by the
`except SlugAlreadyExistsError` clauses in `shortener.py` and `main.py`. -/
def PyError.isSlugAlreadyExistsError : PyError → Bool
  | .slugAlreadyExistsError _ => true
  | _ => false

/-- `str(e)`: the message carried by the exception. -/
def PyError.msg : PyError → String
  | .valueError m => m
  | .slugAlreadyExistsError m => m
  | .noLongUrlFoundError m => m
  | .multipleResultsFound => "Multiple rows were found when one or none was required"

/-- Row of the `short_urls` table (`src/database/models.py`, class `ShortURL`). -/
structure ShortURL where
  slug : String
  long_url : String
  custom_slug : Bool
  expires_at : Option Int
  created_at : Int
  updated_at : Int
deriving Repr, DecidableEq

/-- `ShortURL.is_expired` from `src/database/models.py`: no expiry means
never expired; otherwise expired exactly when `now > expires_at`. -/
def ShortURL.is_expired (r : ShortURL) (now : Int) : Bool :=
  match r.expires_at with
  | none => false
  | some expires => decide (now > expires)

/-- Row of the `clicks` table (`src/database/models.py`, class `Click`). -/
structure Click where
  id : Nat
  slug : String
  clicked_at : Int
  ip_address : Option String
  user_agent : Option String
  referer : Option String
deriving Repr, DecidableEq

/-- The Persistent Store: both tables. -/
structure Database where
  urls : List ShortURL
  clicks : List Click
deriving Repr, DecidableEq

/-- SQLAlchemy `Result.scalar_one_or_none`: `none` for an empty result set,
the unique row if there is exactly one, and `MultipleResultsFound` raised
when the query returned several rows. -/
def scalar_one_or_none {α : Type} : List α → Except PyError (Option α)
  | [] => .ok none
  | [a] => .ok (some a)
  | _ :: _ :: _ => .error .multipleResultsFound

namespace Crud

/-- `add_slug_to_database` from `src/database/crud.py`: insert a new row;
the commit raises `IntegrityError` exactly when the primary-key constraint
on `slug` is violated, which the function converts (after rollback) into a
bare `SlugAlreadyExistsError`.  `created_at`/`updated_at` are the
server-side `now()` defaults. -/
def add_slug_to_database (slug long_url : String) (db : Database)
    (custom_slug : Bool) (expires_at : Option Int) (now : Int) :
    Except PyError Database :=
  if db.urls.any (fun r => r.slug == slug) then
    .error (.slugAlreadyExistsError "")
  else
    .ok { db with
          urls := db.urls ++
            [{ slug := slug, long_url := long_url, custom_slug := custom_slug,
               expires_at := expires_at, created_at := now, updated_at := now }] }

/-- `get_long_url_by_slug_from_database` from `src/database/crud.py`:
`SELECT * FROM short_urls WHERE slug = :slug` then `scalar_one_or_none`. -/
def get_long_url_by_slug_from_database (slug : String) (db : Database) :
    Except PyError (Option ShortURL) :=
  scalar_one_or_none (db.urls.filter (fun r => r.slug == slug))

/-- `get_long_url_by_slug` from `src/database/crud.py`: `None` when the
record is absent or expired, otherwise the stored `long_url`. -/
def get_long_url_by_slug (slug : String) (db : Database) (now : Int) :
    Except PyError (Option String) := do
  let record ← get_long_url_by_slug_from_database slug db
  match record with
  | none => pure none
  | some r => if r.is_expired now then pure none else pure (some r.long_url)

/-- `get_url_by_long_url` from `src/database/crud.py`:
`SELECT * FROM short_urls WHERE long_url = :long_url` then
`scalar_one_or_none`. -/
def get_url_by_long_url (long_url : String) (db : Database) :
    Except PyError (Option ShortURL) :=
  scalar_one_or_none (db.urls.filter (fun r => r.long_url == long_url))

/-- The `total_clicks` aggregate of `get_click_stats_for_slug` from
`src/database/crud.py`: `COUNT(*)` over clicks with the given slug. -/
def get_click_count_for_slug (slug : String) (db : Database) : Nat :=
  (db.clicks.filter (fun c => c.slug == slug)).length

end Crud

namespace Shortener

/-- `string.ascii_letters + string.digits`. -/
def ALPHABET : String :=
  "abcdefghijklmnopqrstuvwxyzABCDEFGHIJKLMNOPQRSTUVWXYZ0123456789"

/-- `SLUG_LENGTH` from `src/shortener.py`. -/
def SLUG_LENGTH : Nat := 6

/-- `MAX_ATTEMPTS` from `src/shortener.py`. -/
def MAX_ATTEMPTS : Nat := 5

/-- `secrets.choice(alphabet)` for the draw with index `idx` of the random
stream: an element of the sequence, selected by the draw. -/
def choice (alphabet : String) (idx : Nat) : Char :=
  alphabet.toList.getD (idx % alphabet.toList.length) 'a'

/-- `generate_random_slug` from `src/shortener.py`:
`"".join(choice(ALPHABET) for _ in range(length))`, with `pick` supplying
the random draws of the `length` successive `choice` calls. -/
def generate_random_slug (pick : Nat → Nat) (len : Nat) : String :=
  String.mk ((List.range len).map (fun i => choice ALPHABET (pick i)))

/-- ASCII alphanumeric: the character class `[a-zA-Z0-9]`. -/
def isAlnumAscii (c : Char) : Bool :=
  (decide ('a' ≤ c) && decide (c ≤ 'z')) ||
  (decide ('A' ≤ c) && decide (c ≤ 'Z')) ||
  (decide ('0' ≤ c) && decide (c ≤ '9'))

/-- Full-string match of `[a-zA-Z0-9]{4,12}`. -/
def matchesSlugPattern (l : List Char) : Bool :=
  decide (4 ≤ l.length) && decide (l.length ≤ 12) && l.all isAlnumAscii

/-- `is_valid_custom_slug` from `src/shortener.py`:
`re.match(r"^[a-zA-Z0-9]{4,12}$", slug)`.  In Python, `$` matches at the
end of the string and also just before a single trailing newline, so a
body of 4-12 alphanumerics followed by one final `\n` also matches. -/
def is_valid_custom_slug (slug : String) : Bool :=
  matchesSlugPattern slug.toList ||
    (slug.toList.getLast? == some '\n' && matchesSlugPattern slug.toList.dropLast)

/-- `calculate_expires_at` from `src/shortener.py`:
`datetime.now(UTC) + timedelta(days=days)`, in seconds. -/
def calculate_expires_at (days : Option Int) (now : Int) : Option Int :=
  match days with
  | none => none
  | some d => some (now + d * 86400)

/-- Python truthiness of the `str | None` parameter `custom_slug`: the
`if custom_slug:` test is `False` for `None` and for the empty string. -/
def truthy : Option String → Bool
  | none => false
  | some s => s != ""

/-- The candidate produced by `generate_random_slug()` on loop iteration
`attempt` of `generate_short_url`: it consumes the next `SLUG_LENGTH`
draws of the random stream. -/
def loop_candidate (pick : Nat → Nat) (attempt : Nat) : String :=
  generate_random_slug (fun i => pick (attempt * SLUG_LENGTH + i)) SLUG_LENGTH

/-- The `for attempt in range(MAX_ATTEMPTS)` loop of `generate_short_url`
(`src/shortener.py`): each iteration generates a fresh candidate and tries
to insert it; on `SlugAlreadyExistsError` at the last attempt it re-raises
with the exhaustion message, otherwise it continues.  `remaining` counts
the iterations left (`MAX_ATTEMPTS - attempt`); the `remaining = 0` case is
the unreachable `raise SlugAlreadyExistsError` after the loop. -/
def alloc_attempts (long_url : String) (db : Database) (expires_at : Option Int)
    (now : Int) (pick : Nat → Nat) (attempt remaining : Nat)
    (trace : List String) :
    Except PyError (String × Bool) × Database × List String :=
  match remaining with
  | 0 => (.error (.slugAlreadyExistsError ""), db, trace)
  | r + 1 =>
    let slug := loop_candidate pick attempt
    match Crud.add_slug_to_database slug long_url db false expires_at now with
    | .ok db2 => (.ok (slug, false), db2, trace ++ [slug])
    | .error _ =>
      if attempt == MAX_ATTEMPTS - 1 then
        (.error (.slugAlreadyExistsError
            ("Failed to generate unique slug after " ++
              toString MAX_ATTEMPTS ++ " attempts")), db, trace ++ [slug])
      else
        alloc_attempts long_url db expires_at now pick (attempt + 1) r
          (trace ++ [slug])

/-- `generate_short_url` from `src/shortener.py` with the default
`add_to_db_func = add_slug_to_database`.  A truthy custom slug is
validated (`ValueError` on failure) and inserted exactly once, conflicts
re-raised as `SlugAlreadyExistsError` with the custom-slug message;
otherwise the random-candidate retry loop runs. -/
def generate_short_url (long_url : String) (db : Database)
    (custom_slug : Option String) (expires_at : Option Int) (now : Int)
    (pick : Nat → Nat) :
    Except PyError (String × Bool) × Database × List String :=
  if truthy custom_slug then
    let cs := custom_slug.getD ""
    if is_valid_custom_slug cs then
      match Crud.add_slug_to_database cs long_url db true expires_at now with
      | .ok db2 => (.ok (cs, true), db2, [cs])
      | .error _ =>
        (.error (.slugAlreadyExistsError
            ("Custom slug \x27" ++ cs ++ "\x27 already exists")), db, [cs])
    else
      (.error (.valueError "Custom slug must be 4-12 alphanumeric characters"),
        db, [])
  else
    alloc_attempts long_url db expires_at now pick 0 MAX_ATTEMPTS []

end Shortener

namespace Service

/-- `generate_short_url` from `src/service.py`: computes `expires_at` from
`expires_in_days` via `calculate_expires_at` and delegates to the
shortener, returning `(slug, is_custom, expires_at)`. -/
def generate_short_url (long_url : String) (db : Database)
    (custom_slug : Option String) (expires_in_days : Option Int) (now : Int)
    (pick : Nat → Nat) :
    Except PyError (String × Bool × Option Int) × Database × List String :=
  let expires_at := Shortener.calculate_expires_at expires_in_days now
  match Shortener.generate_short_url long_url db custom_slug expires_at now pick with
  | (.ok (slug, is_custom), db2, trace) => (.ok (slug, is_custom, expires_at), db2, trace)
  | (.error e, db2, trace) => (.error e, db2, trace)

/-- `get_url_by_slug` from `src/service.py`: raises `NoLongUrlFoundError`
when the crud lookup yields a falsy value (`None` or the empty string). -/
def get_url_by_slug (slug : String) (db : Database) (now : Int) :
    Except PyError String := do
  let long_url ← Crud.get_long_url_by_slug slug db now
  match long_url with
  | none => .error (.noLongUrlFoundError "URL not found or expired")
  | some s =>
    if s == "" then .error (.noLongUrlFoundError "URL not found or expired")
    else pure s

/-- The record returned by `get_url_info` (`src/service.py`). -/
structure UrlInfo where
  slug : String
  long_url : String
  custom_slug : Bool
  expires_at : Option Int
  created_at : Int
  updated_at : Int
  click_count : Nat
deriving Repr, DecidableEq

/-- `get_url_info` from `src/service.py`: looks the row up by slug with no
expiry check, raises `NoLongUrlFoundError` only when the row is absent,
and otherwise returns the full record with its click count. -/
def get_url_info (slug : String) (db : Database) : Except PyError UrlInfo := do
  let record ← Crud.get_long_url_by_slug_from_database slug db
  match record with
  | none => .error (.noLongUrlFoundError "URL not found")
  | some r =>
    pure { slug := r.slug, long_url := r.long_url, custom_slug := r.custom_slug,
           expires_at := r.expires_at, created_at := r.created_at,
           updated_at := r.updated_at,
           click_count := Crud.get_click_count_for_slug slug db }

/-- `check_existing_url` from `src/service.py`: the dedup lookup — the slug
of the row with this `long_url`, provided it exists and is not expired. -/
def check_existing_url (long_url : String) (db : Database) (now : Int) :
    Except PyError (Option String) := do
  let record ← Crud.get_url_by_long_url long_url db
  match record with
  | some r => if r.is_expired now then pure none else pure (some r.slug)
  | none => pure none

end Service

namespace RedisCache

/-- The Cache Layer: Redis key/value entries plus hit/miss counters, and an
`available` flag — when `false`, every Redis call raises `RedisError`
(which each helper below catches internally). -/
structure Cache where
  entries : List (String × String)
  available : Bool
  hits : Nat
  misses : Nat
deriving Repr, DecidableEq

/-- `get_cached_url` from `src/cache/redis_client.py`: `GET url:{slug}`,
returning `None` on an absent or empty value (`if data:` truthiness) and
`None` on `RedisError` (caught and logged). -/
def get_cached_url (slug : String) (c : Cache) : Option String :=
  if c.available then
    match c.entries.lookup ("url:" ++ slug) with
    | some data => if data == "" then none else some data
    | none => none
  else none

/-- `cache_url` from `src/cache/redis_client.py`: `SETEX url:{slug}`,
overwriting any previous entry; returns `False` (leaving the cache
unchanged) on `RedisError`. -/
def cache_url (slug long_url : String) (c : Cache) : Cache × Bool :=
  if c.available then
    ({ c with entries := ("url:" ++ slug, long_url) ::
        c.entries.filter (fun e => e.1 != "url:" ++ slug) }, true)
  else (c, false)

/-- `delete_cached_url` from `src/cache/redis_client.py`: `DEL url:{slug}`;
returns `False` (leaving the cache unchanged) on `RedisError`. -/
def delete_cached_url (slug : String) (c : Cache) : Cache × Bool :=
  if c.available then
    ({ c with entries := c.entries.filter (fun e => e.1 != "url:" ++ slug) }, true)
  else (c, false)

/-- `increment_cache_hits` from `src/cache/redis_client.py`: `INCR`, with
`RedisError` swallowed. -/
def increment_cache_hits (c : Cache) : Cache :=
  if c.available then { c with hits := c.hits + 1 } else c

/-- `increment_cache_misses` from `src/cache/redis_client.py`: `INCR`, with
`RedisError` swallowed. -/
def increment_cache_misses (c : Cache) : Cache :=
  if c.available then { c with misses := c.misses + 1 } else c

end RedisCache

namespace Main

open RedisCache

/-- Outcome of `GET /{slug}`: a redirect to the resolved location, or the
`HTTPException(404, "URL not found or expired")` response. -/
inductive RedirectOutcome where
  | redirect (location : String)
  | notFound
deriving Repr, DecidableEq

/-- `redirect_to_url` from `src/main.py` (the resolve path), up to the
response: cache-aside lookup, then database fallback.  `dbAvailable`
models whether the Persistent Store is reachable: when it is `false` the
`get_url_by_slug` call raises a connection error, which the surrounding
`except Exception` converts to the 404 response — the same branch that
catches `NoLongUrlFoundError` for an absent or expired row.  A cache hit
is returned immediately, with no expiry re-check against the store.  The
write-back `cache_url` result is ignored (best effort), and the click
event enqueued afterwards does not affect the response. -/
def redirect_to_url (slug : String) (db : Database) (dbAvailable : Bool)
    (cache : Cache) (now : Int) : RedirectOutcome × Cache :=
  match get_cached_url slug cache with
  | some long_url => (.redirect long_url, increment_cache_hits cache)
  | none =>
    let cache := increment_cache_misses cache
    if dbAvailable then
      match Service.get_url_by_slug slug db now with
      | .ok long_url =>
        let (cache, _) := cache_url slug long_url cache
        (.redirect long_url, cache)
      | .error _ => (.notFound, cache)
    else (.notFound, cache)

/-- Outcome of `POST /api/v1/urls`: the created (or deduplicated) mapping,
an `HTTPException(409)` conflict, or a 500 from an exception no handler in
the endpoint catches (converted by the generic `Exception` handler). -/
inductive CreateResult where
  | created (slug : String) (custom_slug : Bool) (expires_at : Option Int)
  | conflict (detail : String)
  | serverError
deriving Repr, DecidableEq

/-- The allocation arm of `create_short_url` (`src/main.py`): call the
service `generate_short_url`; `SlugAlreadyExistsError` is caught and
re-raised as `HTTPException(409, str(e))`, while any other exception
(e.g. the `ValueError` of an invalid custom slug) escapes to the generic
handler as a 500. -/
def create_allocate (long_url : String) (custom_slug : Option String)
    (expires_in_days : Option Int) (db : Database) (now : Int)
    (pick : Nat → Nat) : CreateResult × Database × List String :=
  match Service.generate_short_url long_url db custom_slug expires_in_days now pick with
  | (.ok (slug, is_custom, expires_at), db2, trace) =>
    (.created slug is_custom expires_at, db2, trace)
  | (.error e, db2, trace) =>
    if e.isSlugAlreadyExistsError then (.conflict e.msg, db2, trace)
    else (.serverError, db2, trace)

/-- `create_short_url` from `src/main.py`: first the dedup check
`check_existing_url` — an existing live mapping is returned as-is, with
`custom_slug := false` and `expires_at := none` in the response; a
`MultipleResultsFound` from the lookup is uncaught and becomes a 500.
Otherwise allocation proceeds.  (The endpoint also computes
`calculate_expires_at` before the call and immediately shadows the result,
so that computation has no observable effect.) -/
def create_short_url (long_url : String) (custom_slug : Option String)
    (expires_in_days : Option Int) (db : Database) (now : Int)
    (pick : Nat → Nat) : CreateResult × Database × List String :=
  match Service.check_existing_url long_url db now with
  | .error _ => (.serverError, db, [])
  | .ok (some existing_slug) => (.created existing_slug false none, db, [])
  | .ok none => create_allocate long_url custom_slug expires_in_days db now pick

end Main

namespace Worker

open RedisCache

/-- The worker's expiry filter (`src/worker.py`):
`ShortURL.expires_at < datetime.now(UTC)` — SQL three-valued comparison,
so a `NULL` `expires_at` never matches. -/
def expiredFilter (r : ShortURL) (now : Int) : Bool :=
  match r.expires_at with
  | none => false
  | some e => decide (e < now)

/-- `cleanup_expired_urls` from `src/worker.py`: select the rows whose
`expires_at` is in the past, delete each from the store (the `clicks`
rows cascade via `ondelete="CASCADE"`), commit, then best-effort delete
each slug from the cache (`delete_cached_url` swallows `RedisError`).
Returns the new store, the new cache, and `deleted_count`. -/
def cleanup_expired_urls (db : Database) (cache : Cache) (now : Int) :
    Database × Cache × Nat :=
  let expired_urls := db.urls.filter (fun r => expiredFilter r now)
  let remaining := db.urls.filter (fun r => !expiredFilter r now)
  let clicks2 := db.clicks.filter
    (fun c => !expired_urls.any (fun r => r.slug == c.slug))
  let cache2 := expired_urls.foldl
    (fun c r => (delete_cached_url r.slug c).1) cache
  ({ urls := remaining, clicks := clicks2 }, cache2, expired_urls.length)

end Worker

/-! ### Helper lemmas -/

theorem getD_all_of_all {p : Char → Bool} :
    ∀ (l : List Char) (n : Nat) (d : Char), l.all p = true → p d = true →
      p (l.getD n d) = true
  | [], n, d, _, hd => by simpa [List.getD] using hd
  | a :: l, 0, d, hl, _ => by
      simp only [List.all_cons, Bool.and_eq_true] at hl
      simpa [List.getD] using hl.1
  | a :: l, n + 1, d, hl, hd => by
      simp only [List.all_cons, Bool.and_eq_true] at hl
      simpa [List.getD] using getD_all_of_all l n d hl.2 hd

theorem choice_isAlnumAscii (idx : Nat) :
    Shortener.isAlnumAscii (Shortener.choice Shortener.ALPHABET idx) = true := by
  apply getD_all_of_all
  · decide
  · decide

theorem generate_random_slug_length (pick : Nat → Nat) (len : Nat) :
    (Shortener.generate_random_slug pick len).length = len := by
  simp [Shortener.generate_random_slug, String.length]

theorem generate_random_slug_alnum (pick : Nat → Nat) (len : Nat) :
    (Shortener.generate_random_slug pick len).toList.all Shortener.isAlnumAscii = true := by
  rw [List.all_eq_true]
  intro c hc
  simp only [Shortener.generate_random_slug, String.toList, List.mem_map] at hc
  obtain ⟨i, -, rfl⟩ := hc
  exact choice_isAlnumAscii (pick i)

/-! ### C8 -/

/-- C8: every slug produced by `generate_random_slug` has exactly the
requested length (default `SLUG_LENGTH = 6`) and consists only of
`[A-Za-z0-9]` characters, and in particular the candidate generated on
every attempt of the random-allocation loop is a 6-character alphanumeric
string. -/
theorem c8_generated_slug_format (pick : Nat → Nat) (len : Nat) (attempt : Nat) :
    (Shortener.generate_random_slug pick len).length = len ∧
    (Shortener.generate_random_slug pick len).toList.all Shortener.isAlnumAscii = true ∧
    (Shortener.loop_candidate pick attempt).length = Shortener.SLUG_LENGTH ∧
    (Shortener.loop_candidate pick attempt).toList.all Shortener.isAlnumAscii = true ∧
    Shortener.SLUG_LENGTH = 6 :=
  ⟨generate_random_slug_length pick len,
   generate_random_slug_alnum pick len,
   generate_random_slug_length _ _,
   generate_random_slug_alnum _ _,
   rfl⟩

/-! ### C4 and C5 -/

theorem truthy_of_pattern {cs : String}
    (h : Shortener.matchesSlugPattern cs.toList = true) :
    Shortener.truthy (some cs) = true := by
  simp only [Shortener.truthy, bne_iff_ne, ne_eq]
  intro hcs
  subst hcs
  simp [Shortener.matchesSlugPattern] at h

theorem valid_of_pattern {cs : String}
    (h : Shortener.matchesSlugPattern cs.toList = true) :
    Shortener.is_valid_custom_slug cs = true := by
  simp only [Shortener.is_valid_custom_slug, h, Bool.true_or]

/-- C4: for a custom slug matching `^[A-Za-z0-9]{4,12}$`, `allocate`
performs exactly one reservation attempt with that slug (the trace of
insert calls is `[cs]`, no retry): it succeeds and stores the row when the
slug is free, and fails with the `SlugAlreadyExistsError` conflict (store
unchanged) when the store reports a uniqueness violation — as on a second
allocation of the same custom slug. -/
theorem c4_custom_slug_single_attempt (long_url : String) (db : Database)
    (cs : String) (expires_at : Option Int) (now : Int) (pick : Nat → Nat)
    (hpat : Shortener.matchesSlugPattern cs.toList = true) :
    (Shortener.generate_short_url long_url db (some cs) expires_at now pick).2.2 = [cs] ∧
    (db.urls.any (fun r => r.slug == cs) = false →
      Shortener.generate_short_url long_url db (some cs) expires_at now pick =
        (.ok (cs, true),
         { db with urls := db.urls ++
             [{ slug := cs, long_url := long_url, custom_slug := true,
                expires_at := expires_at, created_at := now, updated_at := now }] },
         [cs])) ∧
    (db.urls.any (fun r => r.slug == cs) = true →
      Shortener.generate_short_url long_url db (some cs) expires_at now pick =
        (.error (.slugAlreadyExistsError
            ("Custom slug \x27" ++ cs ++ "\x27 already exists")), db, [cs])) := by
  have htr := truthy_of_pattern hpat
  have hval := valid_of_pattern hpat
  have hstep : Shortener.generate_short_url long_url db (some cs) expires_at now pick =
      match Crud.add_slug_to_database cs long_url db true expires_at now with
      | .ok db2 => (.ok (cs, true), db2, [cs])
      | .error _ =>
        (.error (.slugAlreadyExistsError
            ("Custom slug \x27" ++ cs ++ "\x27 already exists")), db, [cs]) := by
    simp [Shortener.generate_short_url, htr, hval]
  refine ⟨?_, ?_, ?_⟩
  · rw [hstep]
    rcases hadd : Crud.add_slug_to_database cs long_url db true expires_at now with db2 | e <;> simp [hadd]
  · intro hfree
    rw [hstep]
    simp [Crud.add_slug_to_database, hfree]
  · intro htaken
    rw [hstep]
    simp [Crud.add_slug_to_database, htaken]

/-- C4 witness: allocating the valid custom slug `mylink` on an empty store
succeeds with a single insert; allocating it again conflicts. -/
theorem c4_witness :
    Shortener.generate_short_url "https://a.com" ⟨[], []⟩ (some "mylink") none 0 (fun _ => 0) =
      (.ok ("mylink", true),
       ⟨[⟨"mylink", "https://a.com", true, none, 0, 0⟩], []⟩, ["mylink"]) ∧
    Shortener.generate_short_url "https://b.com"
        ⟨[⟨"mylink", "https://a.com", true, none, 0, 0⟩], []⟩
        (some "mylink") none 0 (fun _ => 0) =
      (.error (.slugAlreadyExistsError "Custom slug \x27mylink\x27 already exists"),
       ⟨[⟨"mylink", "https://a.com", true, none, 0, 0⟩], []⟩, ["mylink"]) := by
  constructor
  · exact (c4_custom_slug_single_attempt "https://a.com" ⟨[], []⟩ "mylink" none 0
      (fun _ => 0) (by decide)).2.1 (by decide)
  · exact (c4_custom_slug_single_attempt "https://b.com"
      ⟨[⟨"mylink", "https://a.com", true, none, 0, 0⟩], []⟩ "mylink" none 0
      (fun _ => 0) (by decide)).2.2 (by decide)

/-- C5 counterexample: the empty string does not match the format rule,
yet `allocate` with `custom_slug = ""` does not fail with the format error
— Python truthiness (`if custom_slug:`) treats `""` as no custom slug, so
the random-allocation loop runs and the store is written. -/
theorem c5_counterexample :
    Shortener.is_valid_custom_slug "" = false ∧
    Shortener.generate_short_url "https://example.com" ⟨[], []⟩ (some "") none 0 (fun _ => 0) =
      (.ok ("aaaaaa", false),
       ⟨[⟨"aaaaaa", "https://example.com", false, none, 0, 0⟩], []⟩,
       ["aaaaaa"]) := by
  exact ⟨by decide, by rfl⟩

/-- C5 as amended: for every NON-EMPTY custom slug rejected by the code's
validator (`is_valid_custom_slug`, i.e. not 4-12 alphanumerics, optionally
followed by a single trailing newline which Python `re.match`'s `$`
accepts), `allocate` fails with the `ValueError` format error, with no
store operation performed (store unchanged, empty insert trace).  An empty
custom slug is instead treated as absent and random allocation runs. -/
theorem c5_amended (long_url : String) (db : Database) (cs : String)
    (expires_at : Option Int) (now : Int) (pick : Nat → Nat)
    (htr : Shortener.truthy (some cs) = true)
    (hval : Shortener.is_valid_custom_slug cs = false) :
    Shortener.generate_short_url long_url db (some cs) expires_at now pick =
      (.error (.valueError "Custom slug must be 4-12 alphanumeric characters"), db, []) := by
  simp [Shortener.generate_short_url, htr, hval]

/-- C5 witness: the non-empty invalid slug `ab!` is rejected with the
format error and the store is untouched. -/
theorem c5_witness :
    Shortener.generate_short_url "https://example.com" ⟨[], []⟩ (some "ab!") none 0 (fun _ => 0) =
      (.error (.valueError "Custom slug must be 4-12 alphanumeric characters"),
       ⟨[], []⟩, []) :=
  c5_amended "https://example.com" ⟨[], []⟩ "ab!" none 0 (fun _ => 0) (by decide) (by decide)

/-! ### C2 -/

/-- C2 counterexample: the exhaustion failure is NOT an error distinct from
the one used for custom-slug collisions.  With a store that already holds
every candidate the generator produces, the random path exhausts its 5
attempts and raises `SlugAlreadyExistsError` — the very exception class
raised for a custom-slug conflict (both satisfy
`isinstance(e, SlugAlreadyExistsError)`); they differ only in message, and
`main.py` surfaces both as HTTP 409. -/
theorem c2_counterexample :
    (Shortener.generate_short_url "https://example.com"
        ⟨[⟨"aaaaaa", "https://example.com", false, none, 0, 0⟩], []⟩
        none none 0 (fun _ => 0)).1 =
      .error (.slugAlreadyExistsError "Failed to generate unique slug after 5 attempts") ∧
    PyError.isSlugAlreadyExistsError
      (.slugAlreadyExistsError "Failed to generate unique slug after 5 attempts") = true ∧
    (Shortener.generate_short_url "https://b.com"
        ⟨[⟨"aaaaaa", "https://example.com", false, none, 0, 0⟩], []⟩
        (some "aaaaaa") none 0 (fun _ => 0)).1 =
      .error (.slugAlreadyExistsError "Custom slug \x27aaaaaa\x27 already exists") ∧
    PyError.isSlugAlreadyExistsError
      (.slugAlreadyExistsError "Custom slug \x27aaaaaa\x27 already exists") = true := by
  exact ⟨by rfl, by rfl, by rfl, by rfl⟩

/-- C2 as amended: when no custom slug is supplied and every reservation
attempt reports a uniqueness violation, `allocate` retries with a freshly
generated candidate on each of `MAX_ATTEMPTS = 5` attempts (the insert
trace lists the five successive loop candidates) and then fails with
`SlugAlreadyExistsError` carrying the exhaustion message — the same
exception class as the `SlugConflict` of custom-slug collisions (both
surfaced as HTTP 409), distinguished only by its message text. -/
theorem c2_amended (long_url : String) (db : Database) (expires_at : Option Int)
    (now : Int) (pick : Nat → Nat)
    (hcoll : ∀ k, k < Shortener.MAX_ATTEMPTS →
      db.urls.any (fun r => r.slug == Shortener.loop_candidate pick k) = true) :
    Shortener.generate_short_url long_url db none expires_at now pick =
      (.error (.slugAlreadyExistsError "Failed to generate unique slug after 5 attempts"),
       db,
       [Shortener.loop_candidate pick 0, Shortener.loop_candidate pick 1,
        Shortener.loop_candidate pick 2, Shortener.loop_candidate pick 3,
        Shortener.loop_candidate pick 4]) ∧
    PyError.isSlugAlreadyExistsError
      (.slugAlreadyExistsError "Failed to generate unique slug after 5 attempts") = true := by
  have h0 := hcoll 0 (by decide)
  have h1 := hcoll 1 (by decide)
  have h2 := hcoll 2 (by decide)
  have h3 := hcoll 3 (by decide)
  have h4 := hcoll 4 (by decide)
  refine ⟨?_, rfl⟩
  show Shortener.alloc_attempts long_url db expires_at now pick 0 Shortener.MAX_ATTEMPTS [] = _
  show Shortener.alloc_attempts long_url db expires_at now pick 0 5 [] = _
  simp only [Shortener.alloc_attempts, Crud.add_slug_to_database, h0, h1, h2, h3, h4,
    Shortener.MAX_ATTEMPTS, if_true, Nat.reduceEqDiff, List.nil_append, List.append_assoc,
    List.singleton_append, List.cons_append, Nat.reduceBEq, reduceIte]
  rfl

/-- C2 witness: a store holding the constant candidate `aaaaaa` makes all
five attempts collide; the call fails with the exhaustion message after a
five-entry insert trace. -/
theorem c2_witness :
    Shortener.generate_short_url "https://example.com"
        ⟨[⟨"aaaaaa", "https://example.com", false, none, 0, 0⟩], []⟩
        none none 0 (fun _ => 0) =
      (.error (.slugAlreadyExistsError "Failed to generate unique slug after 5 attempts"),
       ⟨[⟨"aaaaaa", "https://example.com", false, none, 0, 0⟩], []⟩,
       ["aaaaaa", "aaaaaa", "aaaaaa", "aaaaaa", "aaaaaa"]) := by
  have h := (c2_amended "https://example.com"
    ⟨[⟨"aaaaaa", "https://example.com", false, none, 0, 0⟩], []⟩
    none 0 (fun _ => 0) (by decide)).1
  simpa using h

/-! ### C1, C3 and C6: the resolve path -/

theorem get_url_by_slug_of_filter {slug : String} {db : Database} {r : ShortURL}
    {now : Int} (hf : db.urls.filter (fun t => t.slug == slug) = [r]) :
    Service.get_url_by_slug slug db now =
      if r.is_expired now then .error (.noLongUrlFoundError "URL not found or expired")
      else if r.long_url == "" then .error (.noLongUrlFoundError "URL not found or expired")
      else .ok r.long_url := by
  have hdb : Crud.get_long_url_by_slug_from_database slug db = .ok (some r) := by
    simp [Crud.get_long_url_by_slug_from_database, hf, scalar_one_or_none]
  cases hexp : r.is_expired now with
  | true =>
    simp [Service.get_url_by_slug, Crud.get_long_url_by_slug, hdb, hexp,
      Except.bind, bind, pure, Except.pure]
  | false =>
    cases hne : r.long_url == "" <;>
      simp [Service.get_url_by_slug, Crud.get_long_url_by_slug, hdb, hexp, hne,
        Except.bind, bind, pure, Except.pure]

theorem redirect_miss {slug : String} {db : Database} {cache : RedisCache.Cache}
    {now : Int} (hc : RedisCache.get_cached_url slug cache = none) :
    Main.redirect_to_url slug db true cache now =
      match Service.get_url_by_slug slug db now with
      | .ok long_url =>
        (.redirect long_url,
         (RedisCache.cache_url slug long_url (RedisCache.increment_cache_misses cache)).1)
      | .error _ => (.notFound, RedisCache.increment_cache_misses cache) := by
  simp [Main.redirect_to_url, hc]

/-- C1 counterexample: an expired mapping whose slug the cache still holds
(the entry was written before the expiry passed) is NOT resolved to
`NotFound`: the cache hit is returned immediately, with no expiry re-check
against the store, so `resolve` redirects to the stale value. -/
theorem c1_counterexample :
    (⟨"abcd", "https://example.com", false, some 5, 0, 0⟩ : ShortURL).is_expired 10 = true ∧
    (Main.redirect_to_url "abcd"
        ⟨[⟨"abcd", "https://example.com", false, some 5, 0, 0⟩], []⟩ true
        ⟨[("url:abcd", "https://example.com")], true, 0, 0⟩ 10).1 =
      .redirect "https://example.com" := by
  exact ⟨by decide, by rfl⟩

/-- C1 as amended: when the cache returns no entry for the slug (miss, or
cache failure, or an empty cached value), `resolve` fails with `NotFound`
for a mapping whose `expires_at` is in the past, and returns the stored
`long_url` for a live mapping (whose stored URL is non-empty — the code
treats an empty stored URL as not found).  When the cache still holds an
entry for the slug, however, the cached value is returned as-is with no
expiry check, so a stale entry written before expiry keeps resolving until
it lapses from the cache. -/
theorem c1_amended (slug : String) (db : Database) (r : ShortURL)
    (cache : RedisCache.Cache) (now : Int)
    (hc : RedisCache.get_cached_url slug cache = none)
    (hf : db.urls.filter (fun t => t.slug == slug) = [r]) :
    (r.is_expired now = true →
      (Main.redirect_to_url slug db true cache now).1 = .notFound) ∧
    (r.is_expired now = false → r.long_url ≠ "" →
      (Main.redirect_to_url slug db true cache now).1 = .redirect r.long_url) := by
  constructor
  · intro hexp
    rw [redirect_miss hc, get_url_by_slug_of_filter hf]
    simp [hexp]
  · intro hexp hne
    have hne2 : (r.long_url == "") = false := by simpa using hne
    rw [redirect_miss hc, get_url_by_slug_of_filter hf]
    simp [hexp, hne2]

/-- C1 witness: with no cache entry, the expired mapping `abcd` resolves to
`NotFound` at time 10, and the live mapping `wxyz` resolves to its stored
URL. -/
theorem c1_witness :
    (Main.redirect_to_url "abcd"
        ⟨[⟨"abcd", "https://example.com", false, some 5, 0, 0⟩], []⟩ true
        ⟨[], true, 0, 0⟩ 10).1 = .notFound ∧
    (Main.redirect_to_url "wxyz"
        ⟨[⟨"wxyz", "https://live.example", false, some 99, 0, 0⟩], []⟩ true
        ⟨[], true, 0, 0⟩ 10).1 = .redirect "https://live.example" := by
  constructor
  · exact (c1_amended "abcd" ⟨[⟨"abcd", "https://example.com", false, some 5, 0, 0⟩], []⟩
      ⟨"abcd", "https://example.com", false, some 5, 0, 0⟩ ⟨[], true, 0, 0⟩ 10
      (by rfl) (by decide)).1 (by decide)
  · exact (c1_amended "wxyz" ⟨[⟨"wxyz", "https://live.example", false, some 99, 0, 0⟩], []⟩
      ⟨"wxyz", "https://live.example", false, some 99, 0, 0⟩ ⟨[], true, 0, 0⟩ 10
      (by rfl) (by decide)).2 (by decide) (by decide)

/-- C3: with the Cache Layer entirely unavailable (every `get`/`set`
raises `RedisError`), `resolve` of a live mapping still succeeds from the
Persistent Store alone: the failure is treated like a miss, never
propagated (the response is the redirect), the cache is left unchanged by
the failed write-back, and the outcome equals that of an ordinary cache
miss against an empty, healthy cache. -/
theorem c3_cache_degradation (slug : String) (db : Database) (r : ShortURL)
    (now : Int) (entries : List (String × String)) (hits misses : Nat)
    (hf : db.urls.filter (fun t => t.slug == slug) = [r])
    (hexp : r.is_expired now = false)
    (hne : r.long_url ≠ "") :
    (Main.redirect_to_url slug db true ⟨entries, false, hits, misses⟩ now).1 =
      .redirect r.long_url ∧
    (Main.redirect_to_url slug db true ⟨entries, false, hits, misses⟩ now).2.entries =
      entries ∧
    (Main.redirect_to_url slug db true ⟨entries, false, hits, misses⟩ now).1 =
      (Main.redirect_to_url slug db true ⟨[], true, hits, misses⟩ now).1 := by
  have hne2 : (r.long_url == "") = false := by simpa using hne
  have hcf : RedisCache.get_cached_url slug ⟨entries, false, hits, misses⟩ = none := by
    simp [RedisCache.get_cached_url]
  have hce : RedisCache.get_cached_url slug ⟨[], true, hits, misses⟩ = none := by
    simp [RedisCache.get_cached_url]
  refine ⟨?_, ?_, ?_⟩
  · rw [redirect_miss hcf, get_url_by_slug_of_filter hf]
    simp [hexp, hne2]
  · rw [redirect_miss hcf, get_url_by_slug_of_filter hf]
    simp [hexp, hne2, RedisCache.cache_url, RedisCache.increment_cache_misses]
  · rw [redirect_miss hcf, redirect_miss hce, get_url_by_slug_of_filter hf]
    simp [hexp, hne2]

/-- C3 witness: with the cache down, the live mapping `wxyz` still
redirects to its stored URL and the dead cache is left as it was. -/
theorem c3_witness :
    (Main.redirect_to_url "wxyz"
        ⟨[⟨"wxyz", "https://live.example", false, none, 0, 0⟩], []⟩ true
        ⟨[("url:stale", "x")], false, 0, 0⟩ 10).1 = .redirect "https://live.example" ∧
    (Main.redirect_to_url "wxyz"
        ⟨[⟨"wxyz", "https://live.example", false, none, 0, 0⟩], []⟩ true
        ⟨[("url:stale", "x")], false, 0, 0⟩ 10).2.entries = [("url:stale", "x")] := by
  have h := c3_cache_degradation "wxyz"
    ⟨[⟨"wxyz", "https://live.example", false, none, 0, 0⟩], []⟩
    ⟨"wxyz", "https://live.example", false, none, 0, 0⟩ 10
    [("url:stale", "x")] 0 0 (by decide) (by decide) (by decide)
  exact ⟨h.1, h.2.1⟩

/-- C6 counterexample: when the Persistent Store read fails during
resolution (`dbAvailable = false`, the connection error caught by the
blanket `except Exception`), `resolve` responds with the same 404
`NotFound` as for a confirmed-absent slug — not with a transient server
error. -/
theorem c6_counterexample :
    (Main.redirect_to_url "abcd" ⟨[], []⟩ false ⟨[], true, 0, 0⟩ 0).1 =
      Main.RedirectOutcome.notFound ∧
    (Main.redirect_to_url "abcd" ⟨[], []⟩ true ⟨[], true, 0, 0⟩ 0).1 =
      Main.RedirectOutcome.notFound := by
  exact ⟨rfl, rfl⟩

/-- C6 as amended: a store read failure during resolution is caught by the
endpoint's blanket exception handler and reported as the 404 `NotFound`
response, for every slug and cache state without a cache hit —
indistinguishable from a confirmed-absent or expired record.  The code
does not distinguish "store unreachable" from "confirmed absent". -/
theorem c6_amended (slug : String) (db : Database) (cache : RedisCache.Cache)
    (now : Int) (hc : RedisCache.get_cached_url slug cache = none) :
    (Main.redirect_to_url slug db false cache now).1 = .notFound := by
  simp [Main.redirect_to_url, hc]

/-- C6 witness: with an empty healthy cache and the store down, resolving
`abcd` yields the 404 `NotFound` response. -/
theorem c6_witness :
    (Main.redirect_to_url "abcd" ⟨[], []⟩ false ⟨[], true, 0, 0⟩ 0).1 =
      Main.RedirectOutcome.notFound :=
  c6_amended "abcd" ⟨[], []⟩ ⟨[], true, 0, 0⟩ 0 (by rfl)

/-! ### C7: idempotent dedup on creation -/

theorem check_existing_url_of_filter {long_url : String} {db : Database}
    {r : ShortURL} {now : Int}
    (hf : db.urls.filter (fun t => t.long_url == long_url) = [r]) :
    Service.check_existing_url long_url db now =
      .ok (if r.is_expired now then none else some r.slug) := by
  have hq : Crud.get_url_by_long_url long_url db = .ok (some r) := by
    simp [Crud.get_url_by_long_url, hf, scalar_one_or_none]
  cases hexp : r.is_expired now <;>
    simp [Service.check_existing_url, hq, hexp, Except.bind, bind, pure, Except.pure]

/-- C7 counterexample: a non-expired mapping (`bbbb`) with the requested
`long_url` exists, yet creation does not return its slug: a second, older
expired mapping shares the same `long_url` (a state the code itself can
reach once an expired mapping is superseded), so the dedup lookup's
`scalar_one_or_none` raises `MultipleResultsFound`, which no handler in the
endpoint catches — the request fails with a 500 server error. -/
theorem c7_counterexample :
    (⟨"bbbb", "https://x.com", false, none, 6, 6⟩ : ShortURL).is_expired 10 = false ∧
    Main.create_short_url "https://x.com" none none
        ⟨[⟨"aaaa", "https://x.com", false, some 5, 0, 0⟩,
          ⟨"bbbb", "https://x.com", false, none, 6, 6⟩], []⟩ 10 (fun _ => 0) =
      (.serverError,
       ⟨[⟨"aaaa", "https://x.com", false, some 5, 0, 0⟩,
         ⟨"bbbb", "https://x.com", false, none, 6, 6⟩], []⟩, []) := by
  exact ⟨by decide, by rfl⟩

/-- C7 as amended: when exactly one mapping with the requested `long_url`
exists: if it is non-expired, creation returns its slug without touching
the allocator (store unchanged, empty insert trace) — with `custom_slug =
false` and `expires_at = none` in the response; if it is expired, the
dedup check is not satisfied and allocation proceeds.  When several
mappings share the `long_url` (possible once an expired mapping has been
superseded), the dedup lookup raises `MultipleResultsFound` and the
request fails with a 500 server error instead of returning the live
mapping's slug. -/
theorem c7_amended (long_url : String) (custom_slug : Option String)
    (expires_in_days : Option Int) (db : Database) (now : Int)
    (pick : Nat → Nat) (r : ShortURL)
    (hf : db.urls.filter (fun t => t.long_url == long_url) = [r]) :
    (r.is_expired now = false →
      Main.create_short_url long_url custom_slug expires_in_days db now pick =
        (.created r.slug false none, db, [])) ∧
    (r.is_expired now = true →
      Main.create_short_url long_url custom_slug expires_in_days db now pick =
        Main.create_allocate long_url custom_slug expires_in_days db now pick) := by
  constructor
  · intro hexp
    rw [Main.create_short_url, check_existing_url_of_filter hf]
    simp [hexp]
  · intro hexp
    rw [Main.create_short_url, check_existing_url_of_filter hf]
    simp [hexp]

/-- C7 witness: with a single live mapping for `https://x.com`, creation
returns its slug `aaaa` with no allocation; with a single expired mapping,
creation falls through to the allocator and inserts a fresh random slug. -/
theorem c7_witness :
    Main.create_short_url "https://x.com" none none
        ⟨[⟨"aaaa", "https://x.com", false, none, 0, 0⟩], []⟩ 10 (fun _ => 0) =
      (.created "aaaa" false none,
       ⟨[⟨"aaaa", "https://x.com", false, none, 0, 0⟩], []⟩, []) ∧
    Main.create_short_url "https://x.com" none none
        ⟨[⟨"zzzz", "https://x.com", false, some 5, 0, 0⟩], []⟩ 10 (fun _ => 0) =
      Main.create_allocate "https://x.com" none none
        ⟨[⟨"zzzz", "https://x.com", false, some 5, 0, 0⟩], []⟩ 10 (fun _ => 0) := by
  constructor
  · exact (c7_amended "https://x.com" none none
      ⟨[⟨"aaaa", "https://x.com", false, none, 0, 0⟩], []⟩ 10 (fun _ => 0)
      ⟨"aaaa", "https://x.com", false, none, 0, 0⟩ (by decide)).1 (by decide)
  · exact (c7_amended "https://x.com" none none
      ⟨[⟨"zzzz", "https://x.com", false, some 5, 0, 0⟩], []⟩ 10 (fun _ => 0)
      ⟨"zzzz", "https://x.com", false, some 5, 0, 0⟩ (by decide)).2 (by decide)

/-! ### C9: the expiry sweeper -/

theorem lookup_filter_self (k : String) (l : List (String × String)) :
    (l.filter (fun e => e.1 != k)).lookup k = none := by
  rw [List.lookup_eq_none_iff]
  intro q hq
  have h2 : q.1 ≠ k := by simpa using (List.mem_filter.mp hq).2
  simpa using h2.symm

theorem lookup_filter_none (k : String) (p : String × String → Bool)
    (l : List (String × String)) (h : l.lookup k = none) :
    (l.filter p).lookup k = none := by
  rw [List.lookup_eq_none_iff] at h ⊢
  intro q hq
  exact h q (List.mem_filter.mp hq).1

theorem delete_preserves_available (s : String) (c : RedisCache.Cache) :
    (RedisCache.delete_cached_url s c).1.available = c.available := by
  by_cases hav : c.available <;> simp [RedisCache.delete_cached_url, hav]

theorem foldl_delete_lookup_none (k : String) :
    ∀ (L : List ShortURL) (c : RedisCache.Cache), c.entries.lookup k = none →
      ((L.foldl (fun acc r => (RedisCache.delete_cached_url r.slug acc).1) c).entries.lookup k) = none
  | [], _, h => h
  | r :: L, c, h => by
    apply foldl_delete_lookup_none k L
    by_cases hav : c.available = true
    · simp only [RedisCache.delete_cached_url, if_pos hav]
      exact lookup_filter_none k _ c.entries h
    · simp only [RedisCache.delete_cached_url, if_neg hav]
      exact h

theorem foldl_delete_lookup :
    ∀ (L : List ShortURL) (c : RedisCache.Cache), c.available = true →
      ∀ r ∈ L,
        ((L.foldl (fun acc t => (RedisCache.delete_cached_url t.slug acc).1) c).entries.lookup
          ("url:" ++ r.slug)) = none
  | [], _, _, r, hr => absurd hr (List.not_mem_nil r)
  | a :: L, c, hav, r, hr => by
    rcases List.mem_cons.mp hr with rfl | hmem
    · rw [List.foldl_cons]
      apply foldl_delete_lookup_none
      simp only [RedisCache.delete_cached_url, if_pos hav]
      exact lookup_filter_self _ c.entries
    · exact foldl_delete_lookup L ((RedisCache.delete_cached_url a.slug c).1)
        (by rw [delete_preserves_available, hav]) r hmem

/-- C9: one run of the sweeper removes from the store exactly the mappings
whose `expires_at` is in the past (a row survives iff it was present and
not past-expiry; `deleted_count` is the number of expired rows), cascades
their click rows (a click survives iff its slug's row was not deleted),
and then best-effort-invalidates each deleted slug from the cache (with a
healthy cache, no deleted slug remains cached).  The store-side result and
the count are identical for EVERY cache state — in particular a cache
whose invalidations all fail — so cache failures roll nothing back. -/
theorem c9_sweeper (db : Database) (cache : RedisCache.Cache) (now : Int)
    (hav : cache.available = true) :
    (∀ r : ShortURL, r ∈ (Worker.cleanup_expired_urls db cache now).1.urls ↔
        r ∈ db.urls ∧ Worker.expiredFilter r now = false) ∧
    (∀ c : Click, c ∈ (Worker.cleanup_expired_urls db cache now).1.clicks ↔
        c ∈ db.clicks ∧
        (db.urls.filter (fun r => Worker.expiredFilter r now)).any
          (fun r => r.slug == c.slug) = false) ∧
    (∀ cache2 : RedisCache.Cache,
        (Worker.cleanup_expired_urls db cache2 now).1 =
          (Worker.cleanup_expired_urls db cache now).1 ∧
        (Worker.cleanup_expired_urls db cache2 now).2.2 =
          (Worker.cleanup_expired_urls db cache now).2.2) ∧
    (Worker.cleanup_expired_urls db cache now).2.2 =
      (db.urls.filter (fun r => Worker.expiredFilter r now)).length ∧
    (∀ r ∈ db.urls.filter (fun r => Worker.expiredFilter r now),
        ((Worker.cleanup_expired_urls db cache now).2.1.entries.lookup
          ("url:" ++ r.slug)) = none) := by
  refine ⟨?_, ?_, ?_, rfl, ?_⟩
  · intro r
    simp [Worker.cleanup_expired_urls, List.mem_filter, Bool.not_eq_true']
  · intro c
    simp [Worker.cleanup_expired_urls, List.mem_filter, Bool.not_eq_true']
  · intro cache2
    exact ⟨rfl, rfl⟩
  · intro r hr
    exact foldl_delete_lookup _ cache hav r hr

/-- C9 witness: on a store with one expired and one live mapping (each with
a click) and a healthy cache caching both slugs, the sweeper deletes
exactly the expired mapping and its click, reports one deletion, and the
deleted slug is no longer cached. -/
theorem c9_witness :
    ((⟨"aaaa", "u", false, some 5, 0, 0⟩ : ShortURL) ∈
      (Worker.cleanup_expired_urls
        ⟨[⟨"aaaa", "u", false, some 5, 0, 0⟩, ⟨"bbbb", "v", false, none, 0, 0⟩],
         [⟨1, "aaaa", 1, none, none, none⟩, ⟨2, "bbbb", 2, none, none, none⟩]⟩
        ⟨[("url:aaaa", "u"), ("url:bbbb", "v")], true, 0, 0⟩ 10).1.urls ↔
      (⟨"aaaa", "u", false, some 5, 0, 0⟩ : ShortURL) ∈
        [(⟨"aaaa", "u", false, some 5, 0, 0⟩ : ShortURL), ⟨"bbbb", "v", false, none, 0, 0⟩] ∧
      Worker.expiredFilter ⟨"aaaa", "u", false, some 5, 0, 0⟩ 10 = false) ∧
    (Worker.cleanup_expired_urls
        ⟨[⟨"aaaa", "u", false, some 5, 0, 0⟩, ⟨"bbbb", "v", false, none, 0, 0⟩],
         [⟨1, "aaaa", 1, none, none, none⟩, ⟨2, "bbbb", 2, none, none, none⟩]⟩
        ⟨[("url:aaaa", "u"), ("url:bbbb", "v")], true, 0, 0⟩ 10).2.2 = 1 ∧
    ((Worker.cleanup_expired_urls
        ⟨[⟨"aaaa", "u", false, some 5, 0, 0⟩, ⟨"bbbb", "v", false, none, 0, 0⟩],
         [⟨1, "aaaa", 1, none, none, none⟩, ⟨2, "bbbb", 2, none, none, none⟩]⟩
        ⟨[("url:aaaa", "u"), ("url:bbbb", "v")], true, 0, 0⟩ 10).2.1.entries.lookup
      "url:aaaa") = none := by
  have h := c9_sweeper
    ⟨[⟨"aaaa", "u", false, some 5, 0, 0⟩, ⟨"bbbb", "v", false, none, 0, 0⟩],
     [⟨1, "aaaa", 1, none, none, none⟩, ⟨2, "bbbb", 2, none, none, none⟩]⟩
    ⟨[("url:aaaa", "u"), ("url:bbbb", "v")], true, 0, 0⟩ 10 rfl
  refine ⟨h.1 _, ?_, ?_⟩
  · rw [h.2.2.2.1]; rfl
  · have h5 := h.2.2.2.2 ⟨"aaaa", "u", false, some 5, 0, 0⟩ (by decide)
    simpa using h5

/-! ### C10: the info path ignores expiry -/

/-- C10: a stored mapping whose `expires_at` is in the past but which the
sweeper has not yet deleted is still returned in full by the info path
(`get_url_info`): slug, long_url, expires_at and click count, with no
`NotFound` — while the resolve path (`get_url_by_slug`) rejects the same
slug as expired at the same instant.  (`get_url_info` takes no current
time at all: expiry is never consulted on the info path.) -/
theorem c10_info_path (slug : String) (db : Database) (now : Int) (r : ShortURL)
    (hf : db.urls.filter (fun t => t.slug == slug) = [r])
    (hexp : r.is_expired now = true) :
    Service.get_url_info slug db =
      .ok ⟨r.slug, r.long_url, r.custom_slug, r.expires_at, r.created_at,
           r.updated_at, Crud.get_click_count_for_slug slug db⟩ ∧
    Service.get_url_by_slug slug db now =
      .error (.noLongUrlFoundError "URL not found or expired") := by
  have hdb : Crud.get_long_url_by_slug_from_database slug db = .ok (some r) := by
    simp [Crud.get_long_url_by_slug_from_database, hf, scalar_one_or_none]
  constructor
  · simp [Service.get_url_info, hdb, Except.bind, bind, pure, Except.pure]
  · rw [get_url_by_slug_of_filter hf]
    simp [hexp]

/-- C10 witness: the expired mapping `abcd` (one click recorded) is still
fully reported by the info endpoint at time 10, while the resolve path
reports it not found at the same time. -/
theorem c10_witness :
    Service.get_url_info "abcd"
        ⟨[⟨"abcd", "https://example.com", false, some 5, 0, 0⟩],
         [⟨1, "abcd", 1, none, none, none⟩]⟩ =
      .ok ⟨"abcd", "https://example.com", false, some 5, 0, 0, 1⟩ ∧
    Service.get_url_by_slug "abcd"
        ⟨[⟨"abcd", "https://example.com", false, some 5, 0, 0⟩],
         [⟨1, "abcd", 1, none, none, none⟩]⟩ 10 =
      .error (.noLongUrlFoundError "URL not found or expired") := by
  have h := c10_info_path "abcd"
    ⟨[⟨"abcd", "https://example.com", false, some 5, 0, 0⟩],
     [⟨1, "abcd", 1, none, none, none⟩]⟩ 10
    ⟨"abcd", "https://example.com", false, some 5, 0, 0⟩ (by decide) (by decide)
  exact ⟨h.1, h.2⟩
